import Mathlib

/-!
Verification development for the Hevy-Insights CSV ingestion pipeline and
analytics engine (frontend/src/utils/csvParser.ts and
frontend/src/utils/csvCalculator.ts).

JavaScript values are embedded as follows: a JS number is a rational
(`ℚ`, with `JSNum` when NaN or the infinities must be distinguished), a
nullable value is an
`Option`, a JS string is a `String`, `Map`/`Record` objects are association
lists in insertion order.  The host-defined pieces of the JS environment
(generic `new Date(string)` parsing, `Date.now()`) are passed in as explicit
parameters; the clock and timezone are modeled as UTC.
-/

/-- Model of `String.prototype.toLowerCase` (ASCII case folding). -/
def jsToLower (s : String) : String := String.mk (s.data.map Char.toLower)

/-- Helper for `String.prototype.includes`: does `pat` occur inside `s`? -/
def containsList (s pat : List Char) : Bool :=
  pat.isPrefixOf s ||
    match s with
    | [] => false
    | _ :: rest => containsList rest pat

/-- Model of `s.includes(pat)` on JS strings. -/
def strIncludes (s pat : String) : Bool := containsList s.data pat.data

/-- Helper for `String.prototype.replace` with a string pattern:
replace the first occurrence of `pat` (non-empty) by `rep`. -/
def replaceFirstList (s pat rep : List Char) : List Char :=
  match s with
  | [] => []
  | c :: rest =>
    if pat.isPrefixOf (c :: rest) then rep ++ (c :: rest).drop pat.length
    else c :: replaceFirstList rest pat rep

/-- Model of `s.replace(pat, rep)` (first occurrence only, as for JS string
patterns).  An empty pattern matches at position 0. -/
def replaceFirst (s pat rep : String) : String :=
  if pat = "" then rep ++ s else String.mk (replaceFirstList s.data pat.data rep.data)

/-- Lexicographic comparison of char lists by code point; models
`a.localeCompare(b) <= 0` for the ASCII strings this code compares. -/
def lexLe : List Char → List Char → Bool
  | [], _ => true
  | _ :: _, [] => false
  | a :: as, b :: bs => a.val < b.val || (a = b && lexLe as bs)

/-- Floor of a rational as an integer (kernel-reducible). -/
def ratFloor (q : ℚ) : Int := Int.fdiv q.num q.den

/-- Model of `Math.round`: round half toward positive infinity. -/
def jsRound (q : ℚ) : Int := ratFloor (q + 1/2)

/-- Gregorian calendar date (year, month, day) of a day count relative to
1970-01-01 (Howard Hinnant's civil-from-days algorithm). -/
def civilFromDays (z0 : Int) : Int × Int × Int :=
  let z := z0 + 719468
  let era := Int.fdiv z 146097
  let doe := z - era * 146097
  let yoe := Int.fdiv (doe - Int.fdiv doe 1460 + Int.fdiv doe 36524 - Int.fdiv doe 146096) 365
  let y := yoe + era * 400
  let doy := doe - (365 * yoe + Int.fdiv yoe 4 - Int.fdiv yoe 100)
  let mp := Int.fdiv (5 * doy + 2) 153
  let d := doy - Int.fdiv (153 * mp + 2) 5 + 1
  let m := mp + (if mp < 10 then 3 else -9)
  (y + (if m ≤ 2 then 1 else 0), m, d)

/-- Zero-pad a (nonnegative) integer to two digits, as `toISOString` does. -/
def pad2 (n : Int) : String := if n < 10 then "0" ++ toString n else toString n

/-- Zero-pad a year to four digits (`toISOString` year field for 0..9999). -/
def pad4 (n : Int) : String :=
  if n < 10 then "000" ++ toString n
  else if n < 100 then "00" ++ toString n
  else if n < 1000 then "0" ++ toString n
  else toString n

/-- The `YYYY-MM-DD` string of a day count since the epoch. -/
def isoDateOfDays (z : Int) : String :=
  let c := civilFromDays z
  pad4 c.1 ++ "-" ++ pad2 c.2.1 ++ "-" ++ pad2 c.2.2

/-- Model of `new Date(t * 1000).toISOString().split("T")[0]` for an epoch
time `t` in seconds: the `YYYY-MM-DD` date part (UTC). -/
def isoDate (t : Int) : String := isoDateOfDays (Int.fdiv t 86400)

/-- A JS `number` that may be `NaN` or an infinity (any other value is a
rational). -/
inductive JSNum where
  | nan
  | inf
  | negInf
  | num (q : ℚ)
deriving DecidableEq

/-- The rational value of `x || 0` for a possibly-null result of `parseInt`
(null, NaN and 0 are all falsy, so they all become 0; `parseInt` never
produces an infinity, so the catch-all is only ever reached on null, NaN
and finite numbers). -/
def numOrZero : Option JSNum → ℚ
  | some (JSNum.num q) => q
  | some JSNum.inf => 0
  | some JSNum.negInf => 0
  | _ => 0

/-- JS truthiness of a possibly-NaN, possibly-null number: null, NaN and 0
are falsy; every other number, the infinities included, is truthy. -/
def truthyNum : Option JSNum → Bool
  | some (JSNum.num q) => decide (q ≠ 0)
  | some JSNum.inf => true
  | some JSNum.negInf => true
  | _ => false

/-- JS addition on possibly-non-finite numbers. -/
def jsAdd : JSNum → JSNum → JSNum
  | JSNum.nan, _ => JSNum.nan
  | _, JSNum.nan => JSNum.nan
  | JSNum.inf, JSNum.negInf => JSNum.nan
  | JSNum.negInf, JSNum.inf => JSNum.nan
  | JSNum.inf, _ => JSNum.inf
  | _, JSNum.inf => JSNum.inf
  | JSNum.negInf, _ => JSNum.negInf
  | _, JSNum.negInf => JSNum.negInf
  | JSNum.num a, JSNum.num b => JSNum.num (a + b)

/-- JS multiplication on possibly-non-finite numbers. -/
def jsMul : JSNum → JSNum → JSNum
  | JSNum.nan, _ => JSNum.nan
  | _, JSNum.nan => JSNum.nan
  | JSNum.inf, JSNum.inf => JSNum.inf
  | JSNum.inf, JSNum.negInf => JSNum.negInf
  | JSNum.negInf, JSNum.inf => JSNum.negInf
  | JSNum.negInf, JSNum.negInf => JSNum.inf
  | JSNum.inf, JSNum.num q =>
    if 0 < q then JSNum.inf else if q < 0 then JSNum.negInf else JSNum.nan
  | JSNum.num q, JSNum.inf =>
    if 0 < q then JSNum.inf else if q < 0 then JSNum.negInf else JSNum.nan
  | JSNum.negInf, JSNum.num q =>
    if 0 < q then JSNum.negInf else if q < 0 then JSNum.inf else JSNum.nan
  | JSNum.num q, JSNum.negInf =>
    if 0 < q then JSNum.negInf else if q < 0 then JSNum.inf else JSNum.nan
  | JSNum.num a, JSNum.num b => JSNum.num (a * b)

/-- `v || 0` on a JS number: NaN and 0 are falsy and become 0, every other
number is returned unchanged. -/
def jsOrZero : JSNum → JSNum
  | JSNum.nan => JSNum.num 0
  | v => v

/-- Numeric value of a list of decimal digit characters. -/
def digitsVal (ds : List Char) : Nat := ds.foldl (fun a c => a * 10 + (c.toNat - 48)) 0

/-- Hexadecimal digit test (for the `0x` branch of `parseInt`). -/
def isHexDigitChar (c : Char) : Bool :=
  c.isDigit || ('a' ≤ c && c ≤ 'f') || ('A' ≤ c && c ≤ 'F')

/-- Numeric value of one hexadecimal digit character. -/
def hexDigitVal (c : Char) : Nat :=
  if c.isDigit then c.toNat - 48
  else if 'a' ≤ c && c ≤ 'f' then c.toNat - 87
  else c.toNat - 55

/-- Numeric value of a list of hexadecimal digit characters. -/
def hexVal (ds : List Char) : Nat := ds.foldl (fun a c => a * 16 + hexDigitVal c) 0

/-- The JS StrWhiteSpace set skipped by `parseFloat` and `parseInt`:
WhiteSpace (tab, vertical tab, form feed, space, no-break space, BOM and
the Unicode space separators) together with the line terminators. -/
def isJSWhitespace (c : Char) : Bool :=
  c = ' ' || c = '\t' || c = '\n' || c = '\r' ||
  c = '\x0b' || c = '\x0c' || c = '\u00A0' || c = '\u1680' ||
  ('\u2000' ≤ c && c ≤ '\u200A') || c = '\u2028' || c = '\u2029' ||
  c = '\u202F' || c = '\u205F' || c = '\u3000' || c = '\uFEFF'

/-- Drop one leading `+` or `-` sign. -/
def afterSign : List Char → List Char
  | '+' :: rest => rest
  | '-' :: rest => rest
  | cs => cs

/-- The sign contributed by one leading `+` or `-`. -/
def signVal (cs : List Char) : Int :=
  match cs with
  | '-' :: _ => -1
  | _ => 1

/-- Exponent part of a JS float literal (`e`/`E`, optional sign, digits);
an exponent marker without digits is ignored, as in `parseFloat`. -/
def parseExpPart (cs : List Char) : Int :=
  match cs with
  | 'e' :: rest =>
    let ds := (afterSign rest).takeWhile Char.isDigit
    if ds = [] then 0 else signVal rest * (digitsVal ds : Int)
  | 'E' :: rest =>
    let ds := (afterSign rest).takeWhile Char.isDigit
    if ds = [] then 0 else signVal rest * (digitsVal ds : Int)
  | _ => 0

/-- Model of the global JS `parseFloat`: skip leading StrWhiteSpace, parse
the longest prefix of the form `[+-] Infinity`, `[+-] digits [. digits]
[e/E [+-] digits]` or `[+-] .digits [e/E [+-] digits]`, and return `NaN`
when neither the `Infinity` literal nor any digits are found. -/
def parseFloatJS (s : String) : JSNum :=
  let cs0 := s.data.dropWhile isJSWhitespace
  let sgn : Int := signVal cs0
  let cs := afterSign cs0
  if "Infinity".data.isPrefixOf cs then
    if sgn < 0 then JSNum.negInf else JSNum.inf
  else
  let intDigits := cs.takeWhile Char.isDigit
  let cs1 := cs.dropWhile Char.isDigit
  let fracDigits := match cs1 with
    | '.' :: rest => rest.takeWhile Char.isDigit
    | _ => []
  let cs2 := match cs1 with
    | '.' :: rest => rest.dropWhile Char.isDigit
    | _ => cs1
  if intDigits = [] ∧ fracDigits = [] then JSNum.nan
  else
    let mant : ℚ := (digitsVal intDigits : ℚ) + (digitsVal fracDigits : ℚ) / 10 ^ fracDigits.length
    JSNum.num ((sgn : ℚ) * mant * 10 ^ parseExpPart cs2)

/-- Model of the global JS `parseInt` with no radix argument: skip leading
whitespace and one sign, use hexadecimal after a `0x`/`0X` prefix and
decimal otherwise, take the longest run of digits, `NaN` when empty. -/
def parseIntJS (s : String) : JSNum :=
  let cs0 := s.data.dropWhile isJSWhitespace
  let sgn : Int := signVal cs0
  let cs := afterSign cs0
  match cs with
  | '0' :: 'x' :: rest =>
    let ds := rest.takeWhile isHexDigitChar
    if ds = [] then JSNum.nan else JSNum.num ((sgn * (hexVal ds : Int) : Int) : ℚ)
  | '0' :: 'X' :: rest =>
    let ds := rest.takeWhile isHexDigitChar
    if ds = [] then JSNum.nan else JSNum.num ((sgn * (hexVal ds : Int) : Int) : ℚ)
  | _ =>
    let ds := cs.takeWhile Char.isDigit
    if ds = [] then JSNum.nan else JSNum.num ((sgn * (digitsVal ds : Int) : Int) : ℚ)

/-- Does the string have a numeric prefix (after whitespace and one sign,
a digit, or a decimal point followed by a digit)?  This is the syntactic
condition under which the tolerant field parsers produce an actual number
rather than `NaN`. -/
def numPrefixHead : List Char → Bool
  | [] => false
  | c :: t =>
    if c = '.' then
      match t with
      | d :: _ => d.isDigit
      | [] => false
    else c.isDigit

/-- See `numPrefixHead`: the head of the remaining input decides whether the
tolerant parsers find any digits. -/
def hasNumPrefix (s : String) : Bool :=
  numPrefixHead (afterSign (s.data.dropWhile isJSWhitespace))

/-- Does the string start (after StrWhiteSpace and one sign) with the
`Infinity` literal that `parseFloat` — but not `parseInt` — accepts? -/
def isInfinityLiteral (s : String) : Bool :=
  "Infinity".data.isPrefixOf (afterSign (s.data.dropWhile isJSWhitespace))

/-- Update the value of the first entry of an association list holding the
given key (models in-place mutation of the object stored in a JS `Map`). -/
def updateFirstVal : List (String × α) → String → (α → α) → List (String × α)
  | [], _, _ => []
  | (k, v) :: rest, key, f =>
    if k = key then (k, f v) :: rest else (k, v) :: updateFirstVal rest key f

namespace CsvParser

/-- One field-mapped data row of the CSV export (interface `CSVRow`);
every field is the raw string from the file. -/
structure CSVRow where
  title : String
  start_time : String
  end_time : String
  description : String
  exercise_title : String
  superset_id : String
  exercise_notes : String
  set_index : String
  set_type : String
  weight_kg : String
  reps : String
  distance_km : String
  duration_seconds : String
  rpe : String
deriving DecidableEq

/-- Interface `ParsedSet`: numeric fields are nullable JS numbers. -/
structure ParsedSet where
  id : String
  index : ℚ
  set_type : Option String
  weight_kg : Option JSNum
  reps : Option JSNum
  distance_km : Option JSNum
  duration_seconds : Option JSNum
  rpe : Option JSNum
deriving DecidableEq

/-- Interface `ParsedExercise`. -/
structure ParsedExercise where
  id : String
  title : String
  superset_id : Option String
  notes : Option String
  sets : List ParsedSet
deriving DecidableEq

/-- Interface `ParsedWorkout`; `start_time` is epoch seconds. -/
structure ParsedWorkout where
  id : String
  title : String
  start_time : Int
  end_time : Option Int
  description : Option String
  exercises : List ParsedExercise
  estimated_volume_kg : JSNum
deriving DecidableEq

/-- `cleanString`: empty, whitespace-only or lone-quote values become null. -/
def cleanString (val : String) : Option String :=
  if val = "" then none
  else
    let trimmed := val.trim
    if trimmed = "" ∨ trimmed = "\"" then none else some trimmed

/-- The `germanMonths` table of `parseDate`, in object-literal order. -/
def germanMonths : List (String × String) :=
  [("Jan", "Jan"), ("Feb", "Feb"), ("Mär", "Mar"), ("Mar", "Mar"), ("Apr", "Apr"),
   ("Mai", "May"), ("Jun", "Jun"), ("Jul", "Jul"), ("Aug", "Aug"),
   ("Sep", "Sep"), ("Okt", "Oct"), ("Nov", "Nov"), ("Dez", "Dec")]

/-- The normalization loop of `parseDate`: the first table entry whose
German abbreviation occurs in the string is replaced (first occurrence)
by its English form, then the loop breaks. -/
def normalizeGermanDate (dateString : String) : String :=
  match germanMonths.find? (fun p => strIncludes dateString p.1) with
  | some p => replaceFirst dateString p.1 p.2
  | none => dateString

/-- `parseDate`: normalize German month abbreviations, then delegate to the
host date parser.  `dateParse` models `new Date(str).getTime()` (in
milliseconds, `none` for an invalid date) and `nowMs` models `Date.now()`;
on failure the current instant is substituted.  The result is epoch
seconds (`Math.floor(ms / 1000)`). -/
def parseDate (dateParse : String → Option Int) (nowMs : Int) (dateString : String) : Int :=
  let normalizedDate := normalizeGermanDate dateString
  match dateParse normalizedDate with
  | some ms => Int.fdiv ms 1000
  | none => Int.fdiv nowMs 1000

/-- The dedup key of a row: raw string concatenation
`row.title + "_" + row.start_time`. -/
def workoutKey (row : CSVRow) : String := row.title ++ "_" ++ row.start_time

/-- The fresh `ParsedWorkout` created when a row's key is new. -/
def newWorkout (dateParse : String → Option Int) (nowMs : Int) (key : String)
    (row : CSVRow) : ParsedWorkout :=
  { id := "csv_" ++ key ++ "_" ++ toString nowMs
    title := if row.title = "" then "Unnamed Workout" else row.title
    start_time := parseDate dateParse nowMs row.start_time
    end_time := if row.end_time = "" then none else some (parseDate dateParse nowMs row.end_time)
    description := cleanString row.description
    exercises := []
    estimated_volume_kg := JSNum.num 0 }

/-- The fresh `ParsedExercise` created when a workout has no exercise with
the row's (case-sensitive) exercise title. -/
def newExercise (workoutId : String) (position : Nat) (row : CSVRow) : ParsedExercise :=
  { id := workoutId ++ "_ex_" ++ toString position ++ "_" ++ row.exercise_title
    title := if row.exercise_title = "" then "Unknown Exercise" else row.exercise_title
    superset_id := cleanString row.superset_id
    notes := cleanString row.exercise_notes
    sets := [] }

/-- The `ParsedSet` built from a row (step 3 of the parser); each numeric
field is null for an empty string and otherwise the tolerant `parseFloat`
or `parseInt` of the raw string. -/
def mkSet (row : CSVRow) (nowMs : Int) (i : Nat) : ParsedSet :=
  { id := "csv_set_" ++ row.set_index ++ "_" ++ toString nowMs ++ "_" ++ toString i
    index := numOrZero (some (parseIntJS row.set_index))
    set_type := if row.set_type = "" then none else some row.set_type
    weight_kg := if row.weight_kg = "" then none else some (parseFloatJS row.weight_kg)
    reps := if row.reps = "" then none else some (parseIntJS row.reps)
    distance_km := if row.distance_km = "" then none else some (parseFloatJS row.distance_km)
    duration_seconds := if row.duration_seconds = "" then none else some (parseIntJS row.duration_seconds)
    rpe := if row.rpe = "" then none else some (parseFloatJS row.rpe) }

/-- Append a set to the first exercise with the given title. -/
def pushSetFirst : List ParsedExercise → String → ParsedSet → List ParsedExercise
  | [], _, _ => []
  | ex :: rest, t, s =>
    if ex.title = t then { ex with sets := ex.sets ++ [s] } :: rest
    else ex :: pushSetFirst rest t s

/-- Fold one row into an existing workout: find-or-create the exercise by
exact title match and push the row's set onto that exercise (the source
pushes onto the found or freshly created object by reference, so a newly
created exercise — whose display title may differ from the row's raw
title — receives the set directly), then compute
`(volume || 0) + weight * reps` when both are truthy. -/
def addRowToWorkout (w : ParsedWorkout) (row : CSVRow) (nowMs : Int) (i : Nat) : ParsedWorkout :=
  let s := mkSet row nowMs i
  let exs :=
    if w.exercises.any (fun ex => ex.title = row.exercise_title) then
      pushSetFirst w.exercises row.exercise_title s
    else
      w.exercises ++ [{ newExercise w.id w.exercises.length row with sets := [s] }]
  let vol :=
    if truthyNum s.weight_kg && truthyNum s.reps then
      jsAdd (jsOrZero w.estimated_volume_kg)
        (jsMul (s.weight_kg.getD JSNum.nan) (s.reps.getD JSNum.nan))
    else w.estimated_volume_kg
  { w with exercises := exs, estimated_volume_kg := vol }

/-- Fold one row into the workout map (get-or-create by dedup key, then
mutate that workout in place). -/
def processRow (dateParse : String → Option Int) (nowMs : Int)
    (m : List (String × ParsedWorkout)) (i : Nat) (row : CSVRow) :
    List (String × ParsedWorkout) :=
  let key := workoutKey row
  let m1 := if (m.lookup key).isSome then m else m ++ [(key, newWorkout dateParse nowMs key row)]
  updateFirstVal m1 key (fun w => addRowToWorkout w row nowMs i)

/-- Fold all rows, threading the 1-based data-row index. -/
def buildMapAux (dateParse : String → Option Int) (nowMs : Int) :
    List (String × ParsedWorkout) → Nat → List CSVRow → List (String × ParsedWorkout)
  | m, _, [] => m
  | m, i, row :: rest => buildMapAux dateParse nowMs (processRow dateParse nowMs m i row) (i + 1) rest

/-- The workout map (insertion-ordered, keyed by dedup key) built from the
field-mapped data rows. -/
def buildMap (dateParse : String → Option Int) (nowMs : Int) (rows : List CSVRow) :
    List (String × ParsedWorkout) :=
  buildMapAux dateParse nowMs [] 1 rows

/-- `parseCSV` from the level of field-mapped rows on: fold every row into
the workout map, then sort the workouts newest first. -/
def parseCSV (dateParse : String → Option Int) (nowMs : Int) (rows : List CSVRow) :
    List ParsedWorkout :=
  List.insertionSort (fun a b => b.start_time ≤ a.start_time)
    ((buildMap dateParse nowMs rows).map Prod.snd)

/-- The error taxonomy of the ingestion entry point. -/
inductive CSVFileError where
  | notCSVFile
  | tooLarge
  | unsupportedUnit
  | missingColumn
deriving DecidableEq

/-- `content.split("\n")[0]?.toLowerCase() || ""`: the lower-cased first
line of the file (the header), which is all the validator ever reads. -/
def headerLine (content : String) : String :=
  jsToLower (String.mk (content.data.takeWhile (fun c => c ≠ '\n')))

/-- `validateCSVFile`, with the file's name, byte size and text content
passed explicitly (the `File`/`FileReader` plumbing is the async edge of
the system): reject a non-`.csv` name, a file over 10 MB, a header line
containing `weight_lbs`, and a header line without `weight_kg`. -/
def validateCSVFile (name : String) (size : Nat) (content : String) :
    Except CSVFileError Bool :=
  if ¬ (".csv".data.isSuffixOf (jsToLower name).data) then Except.error CSVFileError.notCSVFile
  else if size > 10 * 1024 * 1024 then Except.error CSVFileError.tooLarge
  else
    let firstLine := headerLine content
    if strIncludes firstLine "weight_lbs" then Except.error CSVFileError.unsupportedUnit
    else if ¬ strIncludes firstLine "weight_kg" then Except.error CSVFileError.missingColumn
    else Except.ok true

end CsvParser

namespace CsvCalculator

/-- Interface `Set` of the calculator (numeric fields are `number | null`;
numbers are modeled as rationals). -/
structure Set where
  id : String
  index : ℚ
  set_type : Option String
  weight_kg : Option ℚ
  reps : Option ℚ
  distance_km : Option ℚ
  duration_seconds : Option ℚ
  rpe : Option ℚ
deriving DecidableEq

/-- Interface `Exercise` of the calculator. -/
structure Exercise where
  id : String
  title : String
  sets : List Set
deriving DecidableEq

/-- Interface `Workout` of the calculator. -/
structure Workout where
  id : String
  title : String
  start_time : Int
  end_time : Option Int
  description : Option String
  exercises : List Exercise
deriving DecidableEq

/-- `calculateTotalVolume`: sum `(set.weight_kg || 0) * (set.reps || 0)`
over every set of every exercise of every workout, then round once. -/
def calculateTotalVolume (workouts : List Workout) : Int :=
  jsRound
    (workouts.foldl (fun acc w =>
      acc + w.exercises.foldl (fun exAcc ex =>
        exAcc + ex.sets.foldl (fun setAcc s =>
          setAcc + (s.weight_kg.getD 0) * (s.reps.getD 0)) 0) 0) 0)

/-- `calculateAvgVolume`. -/
def calculateAvgVolume (workouts : List Workout) : Int :=
  if workouts.length = 0 then 0
  else jsRound ((calculateTotalVolume workouts : ℚ) / (workouts.length : ℚ))

/-- The `muscleGroups` accumulator in object-literal key order. -/
def muscleGroupsInit : List (String × Nat) :=
  [("chest", 0), ("back", 0), ("shoulders", 0), ("biceps", 0), ("triceps", 0),
   ("legs", 0), ("core", 0)]

/-- The `exerciseToMuscle` pattern table in object-literal order. -/
def exerciseToMuscle : List (String × List String) :=
  [("bench press", ["chest"]), ("incline bench", ["chest"]), ("decline bench", ["chest"]),
   ("chest press", ["chest"]), ("chest fly", ["chest"]), ("pec deck", ["chest"]),
   ("push up", ["chest", "triceps"]), ("dips", ["chest", "triceps"]),
   ("deadlift", ["back", "legs"]), ("pull up", ["back", "biceps"]), ("chin up", ["back", "biceps"]),
   ("lat pulldown", ["back"]), ("seated row", ["back"]), ("cable row", ["back"]),
   ("bent over row", ["back"]), ("barbell row", ["back"]), ("t-bar row", ["back"]),
   ("shoulder press", ["shoulders"]), ("overhead press", ["shoulders"]), ("military press", ["shoulders"]),
   ("lateral raise", ["shoulders"]), ("front raise", ["shoulders"]), ("rear delt", ["shoulders"]),
   ("shrug", ["shoulders"]),
   ("bicep curl", ["biceps"]), ("biceps curl", ["biceps"]), ("hammer curl", ["biceps"]),
   ("preacher curl", ["biceps"]), ("reverse curl", ["biceps"]),
   ("tricep extension", ["triceps"]), ("triceps extension", ["triceps"]), ("tricep pushdown", ["triceps"]),
   ("triceps pushdown", ["triceps"]), ("skull crusher", ["triceps"]), ("overhead extension", ["triceps"]),
   ("squat", ["legs"]), ("leg press", ["legs"]), ("leg extension", ["legs"]), ("leg curl", ["legs"]),
   ("lunge", ["legs"]), ("calf raise", ["legs"]), ("romanian deadlift", ["legs", "back"]),
   ("plank", ["core"]), ("crunch", ["core"]), ("sit up", ["core"]), ("ab wheel", ["core"]),
   ("russian twist", ["core"]), ("hanging leg raise", ["core"])]

/-- `muscleGroups[m] += setCount` guarded by `muscleGroups[m] !== undefined`
(keys not already in the record are ignored). -/
def bumpGroup (g : List (String × Nat)) (m : String) (k : Nat) : List (String × Nat) :=
  g.map (fun p => if p.1 = m then (p.1, p.2 + k) else p)

/-- Process one exercise of `calculateMuscleDistribution`: test the
lower-cased title against the pattern table in order, and on the first
match add the full set count to every mapped group. -/
def classifyAdd (g : List (String × Nat)) (ex : Exercise) : List (String × Nat) :=
  let name := jsToLower ex.title
  let setCount := ex.sets.length
  match exerciseToMuscle.find? (fun p => strIncludes name p.1) with
  | some p => p.2.foldl (fun g m => bumpGroup g m setCount) g
  | none => g

/-- `calculateMuscleDistribution`. -/
def calculateMuscleDistribution (workouts : List Workout) : List (String × Nat) :=
  workouts.foldl (fun g w => w.exercises.foldl classifyAdd g) muscleGroupsInit

/-- The per-exercise-title three-metric record tracked by the PR detector. -/
structure PRState where
  max1RM : ℚ
  maxWeight : ℚ
  maxReps : ℚ
deriving DecidableEq

/-- The zero-initialized `PRState` inserted for a new exercise title. -/
def PRState.init : PRState := { max1RM := 0, maxWeight := 0, maxReps := 0 }

/-- The per-set PR detection step shared by `calculatePRsOverTime` and
`calculatePRsGrouped`: for a set with `weight > 0 && reps > 0` each of the
three metrics that is strictly exceeded counts one PR and updates its
maximum; for `reps > 0 && weight === 0` only the max-reps metric is
checked.  Returns the updated state and the number of PR events. -/
def prUpdateSet (st : PRState) (s : Set) : PRState × Nat :=
  let weight := s.weight_kg.getD 0
  let reps := s.reps.getD 0
  if 0 < weight ∧ 0 < reps then
    let estimated1RM := weight * (1 + reps / 30)
    let st1 := if st.max1RM < estimated1RM then { st with max1RM := estimated1RM } else st
    let c1 : Nat := if st.max1RM < estimated1RM then 1 else 0
    let st2 := if st1.maxWeight < weight then { st1 with maxWeight := weight } else st1
    let c2 : Nat := if st1.maxWeight < weight then 1 else 0
    let st3 := if st2.maxReps < reps then { st2 with maxReps := reps } else st2
    let c3 : Nat := if st2.maxReps < reps then 1 else 0
    (st3, c1 + c2 + c3)
  else if 0 < reps ∧ weight = 0 then
    let st1 := if st.maxReps < reps then { st with maxReps := reps } else st
    let c1 : Nat := if st.maxReps < reps then 1 else 0
    (st1, c1)
  else (st, 0)

/-- Thread the PR state through the sets of one exercise, accumulating the
PR-event count. -/
def prProcessSets (st : PRState) (sets : List Set) : PRState × Nat :=
  sets.foldl (fun acc s =>
    let r := prUpdateSet acc.1 s
    (r.1, acc.2 + r.2)) (st, 0)

/-- Process the exercises of one workout against the per-exercise-title
state map (keyed by the lower-cased title), returning the updated map and
this workout's PR-event count. -/
def processWorkoutExercises (prMap : List (String × PRState)) (exs : List Exercise) :
    List (String × PRState) × Nat :=
  exs.foldl (fun acc ex =>
    let exerciseKey := jsToLower ex.title
    let m1 := if (acc.1.lookup exerciseKey).isSome then acc.1
              else acc.1 ++ [(exerciseKey, PRState.init)]
    let st := (m1.lookup exerciseKey).getD PRState.init
    let r := prProcessSets st ex.sets
    (updateFirstVal m1 exerciseKey (fun _ => r.1), acc.2 + r.2)) (prMap, 0)

/-- `prsByDate.set(date, (prsByDate.get(date) || 0) + c)` on a JS `Map`
in insertion order. -/
def bumpDate (l : List (String × Nat)) (d : String) (c : Nat) : List (String × Nat) :=
  if (l.lookup d).isSome then updateFirstVal l d (fun old => old + c) else l ++ [(d, c)]

/-- `calculatePRsOverTime`: process workouts oldest first, count PR events
per workout, accumulate them per `YYYY-MM-DD` date, and finally sort the
(date, count) pairs by date string. -/
def calculatePRsOverTime (workouts : List Workout) : List (String × Nat) :=
  let sorted := List.insertionSort (fun a b => a.start_time ≤ b.start_time) workouts
  let result := sorted.foldl (fun (acc : List (String × PRState) × List (String × Nat)) w =>
    let date := isoDate w.start_time
    let r := processWorkoutExercises acc.1 w.exercises
    let byDate := if date ≠ "" ∧ 0 < r.2 then bumpDate acc.2 date r.2 else acc.2
    (r.1, byDate)) ([], [])
  List.insertionSort (fun a b => lexLe a.1.data b.1.data = true) result.2

/-- The grouping mode of `calculatePRsGrouped`. -/
inductive GroupBy where
  | week
  | month
deriving DecidableEq

/-- The day count of the Monday 00:00 of the week containing the given day
count (the `startOfWeek` helper; `getDay` is 0 for Sunday, and day 0 of the
epoch was a Thursday). -/
def startOfWeekDays (days : Int) : Int :=
  let day := Int.emod (days + 4) 7
  let offsetToMonday := if day = 0 then -6 else 1 - day
  days + offsetToMonday

/-- The period key of a workout start time: the Monday date of its week, or
its `YYYY-MM` month. -/
def periodKey (groupBy : GroupBy) (t : Int) : String :=
  match groupBy with
  | GroupBy.week => isoDateOfDays (startOfWeekDays (Int.fdiv t 86400))
  | GroupBy.month => String.mk ((isoDate t).data.take 7)

/-- `calculatePRsGrouped`: the identical per-set PR-detection rule keyed by
lower-cased exercise title, with counts accumulated per week or month
bucket (insertion-ordered record, no final sort). -/
def calculatePRsGrouped (workouts : List Workout) (groupBy : GroupBy) : List (String × Nat) :=
  let sorted := List.insertionSort (fun a b => a.start_time ≤ b.start_time) workouts
  let result := sorted.foldl (fun (acc : List (String × PRState) × List (String × Nat)) w =>
    let key := periodKey groupBy w.start_time
    let r := processWorkoutExercises acc.1 w.exercises
    let byPeriod := if 0 < r.2 then bumpDate acc.2 key r.2 else acc.2
    (r.1, byPeriod)) ([], [])
  result.2

/-- All exercises of a workout collection, in order. -/
def allExercises (workouts : List Workout) : List Exercise :=
  (workouts.map Workout.exercises).flatten

/-- All sets of a workout collection, in order. -/
def allSets (workouts : List Workout) : List Set :=
  ((allExercises workouts).map Exercise.sets).flatten

/-- Written from the spec wording for total volume: the volume of a set
when both weight and reps are present, and no value otherwise. -/
def presentVolume (s : Set) : Option ℚ :=
  match s.weight_kg, s.reps with
  | some w, some r => some (w * r)
  | _, _ => none

/-- Written from the spec wording: the sum of `weight * reps` over exactly
the sets where both are present (absent values excluded, not zeroed),
rounded once at the end. -/
def specTotalVolume (workouts : List Workout) : Int :=
  jsRound ((allSets workouts).filterMap presentVolume).sum

/-- The rejected alternative reading of the spec: rounding applied per set
instead of once at the end. -/
def perSetRoundedVolume (workouts : List Workout) : Int :=
  ((allSets workouts).filterMap presentVolume).foldl (fun acc q => acc + jsRound q) 0

/-- Written from the spec wording for the muscle distribution: the groups
mapped by the first pattern of the ordered table that occurs in the
lower-cased exercise title (none when no pattern matches). -/
def matchedMuscles (title : String) : List String :=
  ((exerciseToMuscle.find? (fun p => strIncludes (jsToLower title) p.1)).map Prod.snd).getD []

/-- The number of sets an exercise contributes to one muscle group: its
full set count for every matched group, zero otherwise. -/
def exContribution (k : String) (ex : Exercise) : Nat :=
  (matchedMuscles ex.title).count k * ex.sets.length

end CsvCalculator

/-- A calculator set with the given weight and reps. -/
def sampleSet (w r : ℚ) : CsvCalculator.Set :=
  { id := "s", index := 1, set_type := some "normal", weight_kg := some w, reps := some r,
    distance_km := none, duration_seconds := none, rpe := none }

/-- A calculator set with every nullable field absent. -/
def bareSet : CsvCalculator.Set :=
  { id := "s", index := 1, set_type := none, weight_kg := none, reps := none,
    distance_km := none, duration_seconds := none, rpe := none }

/-- A one-exercise workout at the given start time. -/
def sampleWorkout (i : String) (t : Int) (title : String) (sets : List CsvCalculator.Set) :
    CsvCalculator.Workout :=
  { id := i, title := "W", start_time := t, end_time := none, description := none,
    exercises := [{ id := i ++ "e", title := title, sets := sets }] }

/-- A CSV row with the given title, start time and exercise title and all
other fields empty. -/
def mkRow (t s e : String) : CsvParser.CSVRow :=
  ⟨t, s, "", "", e, "", "", "", "", "", "", "", "", ""⟩

/-- A CSV row whose weight field holds the non-numeric string "abc". -/
def rowAbc : CsvParser.CSVRow :=
  ⟨"T", "S", "", "", "X", "", "", "1", "normal", "abc", "5", "", "", ""⟩

/-- A trivial stand-in for the host date parser (every string invalid). -/
def noDateParse : String → Option Int := fun _ => none

/-! ## Helper lemmas -/

theorem ratFloor_eq_floor (q : ℚ) : ratFloor q = ⌊q⌋ := by
  rw [Rat.floor_def, ratFloor, Int.fdiv_eq_ediv _ (by positivity)]

theorem foldl_add_map (f : α → ℚ) (l : List α) (a : ℚ) :
    l.foldl (fun acc x => acc + f x) a = a + (l.map f).sum := by
  induction l generalizing a with
  | nil => simp
  | cons x l ih => simp [ih, add_assoc]

theorem filterMap_sum_getD (g : α → Option ℚ) (l : List α) :
    (l.filterMap g).sum = (l.map (fun x => (g x).getD 0)).sum := by
  induction l with
  | nil => simp
  | cons x l ih => cases h : g x <;> simp [h, ih]

theorem map_fst_updateFirstVal (l : List (String × α)) (k : String) (f : α → α) :
    (updateFirstVal l k f).map Prod.fst = l.map Prod.fst := by
  induction l with
  | nil => rfl
  | cons p rest ih =>
    cases p with
    | mk a b => by_cases h : a = k <;> simp [updateFirstVal, h, ih]

theorem lookup_isSome_iff (k : String) (l : List (String × α)) :
    (l.lookup k).isSome = true ↔ k ∈ l.map Prod.fst := by
  induction l with
  | nil => simp
  | cons p rest ih =>
    cases p with
    | mk a b =>
      by_cases h : k = a
      · subst h; simp [List.lookup]
      · have hb : (k == a) = false := beq_eq_false_iff_ne.mpr h
        simp [List.lookup, hb, ih, h]

theorem lookup_mem {l : List (String × α)} {k : String} {v : α}
    (h : l.lookup k = some v) : (k, v) ∈ l := by
  induction l with
  | nil => simp [List.lookup] at h
  | cons p rest ih =>
    cases p with
    | mk a b =>
      by_cases hk : k = a
      · subst hk
        simp [List.lookup] at h
        simp [h]
      · have hb : (k == a) = false := beq_eq_false_iff_ne.mpr hk
        simp [List.lookup, hb] at h
        simp [ih h]

open CsvParser CsvCalculator

theorem map_fst_processRow (dp : String → Option Int) (now : Int)
    (m : List (String × ParsedWorkout)) (i : Nat) (row : CSVRow) :
    (processRow dp now m i row).map Prod.fst =
      if (m.lookup (workoutKey row)).isSome then m.map Prod.fst
      else m.map Prod.fst ++ [workoutKey row] := by
  unfold processRow
  by_cases h : (m.lookup (workoutKey row)).isSome <;>
    simp [h, map_fst_updateFirstVal]

theorem nodup_keys_buildMapAux (dp : String → Option Int) (now : Int)
    (rows : List CSVRow) :
    ∀ (m : List (String × ParsedWorkout)) (i : Nat),
      (m.map Prod.fst).Nodup → ((buildMapAux dp now m i rows).map Prod.fst).Nodup := by
  induction rows with
  | nil => intro m i hm; simpa [buildMapAux] using hm
  | cons row rest ih =>
    intro m i hm
    simp only [buildMapAux]
    apply ih
    rw [map_fst_processRow]
    by_cases h : (m.lookup (workoutKey row)).isSome
    · simpa [h] using hm
    · have hk : workoutKey row ∉ m.map Prod.fst := by
        intro hmem
        exact h ((lookup_isSome_iff _ _).mpr hmem)
      simp [h, List.nodup_append, hm, hk]

theorem parseCSV_pairwise (dp : String → Option Int) (now : Int) (rows : List CSVRow) :
    (parseCSV dp now rows).Pairwise (fun a b => b.start_time ≤ a.start_time) := by
  unfold parseCSV
  haveI : IsTotal ParsedWorkout (fun a b => b.start_time ≤ a.start_time) :=
    ⟨fun a b => le_total _ _⟩
  haveI : IsTrans ParsedWorkout (fun a b => b.start_time ≤ a.start_time) :=
    ⟨fun a b c h1 h2 => le_trans h2 h1⟩
  exact List.sorted_insertionSort _ _

theorem presentVolume_getD (s : CsvCalculator.Set) :
    (presentVolume s).getD 0 = (s.weight_kg.getD 0) * (s.reps.getD 0) := by
  cases hw : s.weight_kg <;> cases hr : s.reps <;> simp [presentVolume, hw, hr]

theorem lookup_bumpGroup (g : List (String × Nat)) (m k : String) (n : Nat) :
    (bumpGroup g m n).lookup k =
      if k = m then (g.lookup k).map (· + n) else g.lookup k := by
  induction g with
  | nil => by_cases h : k = m <;> simp [bumpGroup, h]
  | cons p rest ih =>
    cases p with
    | mk a b =>
      simp only [bumpGroup, List.map_cons] at ih ⊢
      by_cases ham : a = m
      · subst ham
        simp only [if_pos rfl]
        by_cases hka : k = a
        · subst hka
          simp [List.lookup]
        · have hb : (k == a) = false := beq_eq_false_iff_ne.mpr hka
          simp [List.lookup, hb, ih, hka]
      · simp only [if_neg ham]
        by_cases hka : k = a
        · subst hka
          have hkm : ¬ k = m := fun hh => ham hh
          simp [List.lookup, hkm]
        · have hb : (k == a) = false := beq_eq_false_iff_ne.mpr hka
          simp [List.lookup, hb, ih]

theorem lookup_foldl_bumpGroup (ms : List String) (g : List (String × Nat)) (k : String) (n : Nat) :
    ((ms.foldl (fun g m => bumpGroup g m n) g).lookup k) =
      (g.lookup k).map (· + ms.count k * n) := by
  induction ms generalizing g with
  | nil => simp
  | cons m rest ih =>
    simp only [List.foldl_cons, ih, lookup_bumpGroup, List.count_cons]
    by_cases hk : k = m
    · subst hk
      simp only [if_pos rfl, beq_self_eq_true, if_true, Option.map_map]
      cases g.lookup k with
      | none => simp
      | some v =>
        simp [Function.comp_def]
        ring
    · have hb : (m == k) = false := beq_eq_false_iff_ne.mpr (fun hh => hk hh.symm)
      simp [hk, hb]

theorem lookup_classifyAdd (g : List (String × Nat)) (ex : Exercise) (k : String) :
    (classifyAdd g ex).lookup k = (g.lookup k).map (· + exContribution k ex) := by
  unfold classifyAdd exContribution matchedMuscles
  cases hf : exerciseToMuscle.find? (fun p => strIncludes (jsToLower ex.title) p.1) with
  | none => simp [hf]
  | some p => simp [hf, lookup_foldl_bumpGroup]

theorem lookup_foldl_classifyAdd (exs : List Exercise) (g : List (String × Nat)) (k : String) :
    ((exs.foldl classifyAdd g).lookup k) =
      (g.lookup k).map (· + (exs.map (exContribution k)).sum) := by
  induction exs generalizing g with
  | nil => simp
  | cons ex rest ih =>
    simp only [List.foldl_cons, ih, lookup_classifyAdd, List.map_cons, List.sum_cons,
      Option.map_map]
    cases g.lookup k with
    | none => simp
    | some v =>
      simp [Function.comp_def]
      ring

theorem lookup_muscleDistribution (workouts : List Workout) (k : String) :
    ((calculateMuscleDistribution workouts).lookup k) =
      (muscleGroupsInit.lookup k).map
        (· + ((allExercises workouts).map (exContribution k)).sum) := by
  unfold calculateMuscleDistribution allExercises
  have main : ∀ (ws : List Workout) (g : List (String × Nat)),
      ((ws.foldl (fun g w => w.exercises.foldl classifyAdd g) g).lookup k) =
        (g.lookup k).map (· + (((ws.map Workout.exercises).flatten.map (exContribution k)).sum)) := by
    intro ws
    induction ws with
    | nil => intro g; simp
    | cons w rest ih =>
      intro g
      simp only [List.foldl_cons, ih, lookup_foldl_classifyAdd, List.map_cons,
        List.flatten, List.map_append, List.sum_append, Option.map_map]
      cases g.lookup k with
      | none => simp
      | some v =>
        simp [Function.comp_def]
        ring
  exact main workouts muscleGroupsInit

theorem table_groups_defined :
    ∀ p ∈ exerciseToMuscle, ∀ m ∈ p.2, (muscleGroupsInit.lookup m).isSome = true := by
  decide

theorem init_values_zero : ∀ p ∈ muscleGroupsInit, p.2 = 0 := by decide

theorem hasNumPrefix_false_nan (s : String) (h : hasNumPrefix s = false) :
    parseIntJS s = JSNum.nan ∧
    (isInfinityLiteral s = false → parseFloatJS s = JSNum.nan) := by
  unfold hasNumPrefix at h
  unfold isInfinityLiteral
  simp only [parseFloatJS, parseIntJS]
  have hdot : ('.' : Char).isDigit = false := by decide
  rcases hcs : afterSign (s.data.dropWhile isJSWhitespace) with _ | ⟨c, _ | ⟨d, t⟩⟩ <;>
    rw [hcs] at h
  · exact ⟨by simp, fun hinf => by simp [hinf]⟩
  · by_cases hc : c = '.'
    · subst hc
      exact ⟨by simp [List.takeWhile_cons, hdot],
             fun hinf => by simp [hinf, List.takeWhile_cons, List.dropWhile_cons, hdot]⟩
    · simp only [numPrefixHead, if_neg hc] at h
      exact ⟨by simp [List.takeWhile_cons, h],
             fun hinf => by simp [hinf, List.takeWhile_cons, List.dropWhile_cons, h, hc]⟩
  · by_cases hc : c = '.'
    · subst hc
      simp [numPrefixHead] at h
      exact ⟨by simp [List.takeWhile_cons, hdot],
             fun hinf => by simp [hinf, List.takeWhile_cons, List.dropWhile_cons, hdot, h]⟩
    · simp only [numPrefixHead, if_neg hc] at h
      have hc0 : ¬ (c = '0') := by
        intro hh
        subst hh
        simp at h
      exact ⟨by simp [List.takeWhile_cons, h, hc0],
             fun hinf => by simp [hinf, List.takeWhile_cons, List.dropWhile_cons, h, hc, hc0]⟩

/-! ## Claim theorems -/

/-- C1: Personal-record detection keeps, per exercise title, running maxima
of three metrics (Epley estimated 1RM weight*(1+reps/30), max weight, max
reps); for every set with weight>0 and reps>0 each metric strictly exceeded
counts one PR event and updates that maximum, and a set with reps>0 and
weight=0 counts only the max-reps metric.  In particular, a set of
weight=100, reps=10 followed chronologically by a set of weight=110, reps=5
registers no 1RM PR on the second day (128.3 < 133.3) but does register a
max-weight PR (110 > 100): day two contributes exactly one PR event. -/
theorem prDetection_three_metrics :
    (∀ (st : PRState) (s : CsvCalculator.Set),
        0 < s.weight_kg.getD 0 → 0 < s.reps.getD 0 →
        prUpdateSet st s =
          ({ max1RM := max st.max1RM ((s.weight_kg.getD 0) * (1 + (s.reps.getD 0) / 30)),
             maxWeight := max st.maxWeight (s.weight_kg.getD 0),
             maxReps := max st.maxReps (s.reps.getD 0) },
           (if st.max1RM < (s.weight_kg.getD 0) * (1 + (s.reps.getD 0) / 30) then 1 else 0) +
           (if st.maxWeight < s.weight_kg.getD 0 then 1 else 0) +
           (if st.maxReps < s.reps.getD 0 then 1 else 0))) ∧
    (∀ (st : PRState) (s : CsvCalculator.Set),
        0 < s.reps.getD 0 → s.weight_kg.getD 0 = 0 →
        prUpdateSet st s =
          ({ st with maxReps := max st.maxReps (s.reps.getD 0) },
           if st.maxReps < s.reps.getD 0 then 1 else 0)) ∧
    calculatePRsOverTime
      [sampleWorkout "a" 0 "Bench" [sampleSet 100 10],
       sampleWorkout "b" 86400 "Bench" [sampleSet 110 5]] =
      [("1970-01-01", 3), ("1970-01-02", 1)] := by
  refine ⟨?_, ?_, ?_⟩
  · intro st s hw hr
    unfold prUpdateSet
    rw [if_pos ⟨hw, hr⟩]
    simp only [apply_ite PRState.max1RM, apply_ite PRState.maxWeight, apply_ite PRState.maxReps,
      ite_self]
    split_ifs with h1 h2 h3 h3 h2 h3 h3 <;>
      simp_all [max_eq_right, max_eq_left, le_of_lt, le_of_not_lt, Prod.ext_iff]
  · intro st s hr hw
    unfold prUpdateSet
    rw [if_neg (by simp [hw]), if_pos ⟨hr, hw⟩]
    by_cases h3 : st.maxReps < s.reps.getD 0 <;>
      simp_all [max_eq_right, max_eq_left, le_of_lt, le_of_not_lt]
  · have d1 : isoDate 0 = "1970-01-01" := by decide
    have d2 : isoDate 86400 = "1970-01-02" := by decide
    have l1 : lexLe "1970-01-01".data "1970-01-02".data = true := by decide
    have k1 : jsToLower "Bench" = "bench" := by decide
    norm_num [calculatePRsOverTime, sampleWorkout, sampleSet, List.insertionSort,
      List.orderedInsert, processWorkoutExercises, prProcessSets, prUpdateSet, PRState.init,
      updateFirstVal, bumpDate, d1, d2, l1, k1]

/-- Witness for C1: the per-set rule instantiated at the zero state with a
100 kg x 10 set (both-positive branch) and a bodyweight 12-rep set. -/
theorem prDetection_three_metrics_witness :
    (0 < (sampleSet 100 10).weight_kg.getD 0 ∧ 0 < (sampleSet 100 10).reps.getD 0 ∧
      prUpdateSet PRState.init (sampleSet 100 10) =
        ({ max1RM := max PRState.init.max1RM
              (((sampleSet 100 10).weight_kg.getD 0) * (1 + ((sampleSet 100 10).reps.getD 0) / 30)),
           maxWeight := max PRState.init.maxWeight ((sampleSet 100 10).weight_kg.getD 0),
           maxReps := max PRState.init.maxReps ((sampleSet 100 10).reps.getD 0) },
         (if PRState.init.max1RM <
              ((sampleSet 100 10).weight_kg.getD 0) * (1 + ((sampleSet 100 10).reps.getD 0) / 30)
          then 1 else 0) +
         (if PRState.init.maxWeight < (sampleSet 100 10).weight_kg.getD 0 then 1 else 0) +
         (if PRState.init.maxReps < (sampleSet 100 10).reps.getD 0 then 1 else 0))) ∧
    (0 < (sampleSet 0 12).reps.getD 0 ∧ (sampleSet 0 12).weight_kg.getD 0 = 0 ∧
      prUpdateSet PRState.init (sampleSet 0 12) =
        ({ PRState.init with maxReps := max PRState.init.maxReps ((sampleSet 0 12).reps.getD 0) },
         if PRState.init.maxReps < (sampleSet 0 12).reps.getD 0 then 1 else 0)) :=
  ⟨⟨by norm_num [sampleSet], by norm_num [sampleSet],
     prDetection_three_metrics.1 PRState.init (sampleSet 100 10)
       (by norm_num [sampleSet]) (by norm_num [sampleSet])⟩,
   ⟨by norm_num [sampleSet], by norm_num [sampleSet],
     prDetection_three_metrics.2.1 PRState.init (sampleSet 0 12)
       (by norm_num [sampleSet]) (by norm_num [sampleSet])⟩⟩

/-- C2: for every date parser, clock value and row list, the workout
collection returned by parseCSV is sorted descending by normalized start
time; the keys of the workout map are pairwise distinct (no two workouts
share a (title, start_time) dedup key); and folding a row whose key is
already present leaves the key set unchanged (the row merges into the
existing workout instead of creating a new one). -/
theorem buildWorkouts_sorted_nodup_merge :
    (∀ (dateParse : String → Option Int) (nowMs : Int) (rows : List CSVRow),
        (parseCSV dateParse nowMs rows).Pairwise (fun a b => b.start_time ≤ a.start_time)) ∧
    (∀ (dateParse : String → Option Int) (nowMs : Int) (rows : List CSVRow),
        ((buildMap dateParse nowMs rows).map Prod.fst).Nodup) ∧
    (∀ (dateParse : String → Option Int) (nowMs : Int)
        (m : List (String × ParsedWorkout)) (i : Nat) (row : CSVRow),
        (m.lookup (workoutKey row)).isSome = true →
        (processRow dateParse nowMs m i row).map Prod.fst = m.map Prod.fst) := by
  refine ⟨parseCSV_pairwise, ?_, ?_⟩
  · intro dp now rows
    exact nodup_keys_buildMapAux dp now rows [] 1 (by simp)
  · intro dp now m i row h
    rw [map_fst_processRow, if_pos h]

/-- Witness for C2: a second row with the key "T_S" merges into the map
built from a first "T_S" row without adding a key. -/
theorem buildWorkouts_sorted_nodup_merge_witness :
    ((buildMap noDateParse 0 [mkRow "T" "S" "X"]).lookup
        (workoutKey (mkRow "T" "S" "X"))).isSome = true ∧
    (processRow noDateParse 0 (buildMap noDateParse 0 [mkRow "T" "S" "X"]) 2
        (mkRow "T" "S" "X")).map Prod.fst =
      (buildMap noDateParse 0 [mkRow "T" "S" "X"]).map Prod.fst :=
  ⟨by decide,
   buildWorkouts_sorted_nodup_merge.2.2 noDateParse 0
     (buildMap noDateParse 0 [mkRow "T" "S" "X"]) 2 (mkRow "T" "S" "X") (by decide)⟩

/-- C3: for every well-named, size-accepted file whose header line contains
weight_lbs, validateCSVFile rejects with the unsupported-unit error; a
header with neither weight_lbs nor weight_kg is rejected with the
missing-column error; and the validator's verdict depends only on the
header line — everything after the first newline (the data rows, which are
therefore never parsed) is ignored.  No unit conversion exists: the only
outcomes are rejection or acceptance of the unmodified content. -/
theorem validateCSVFile_unit_errors :
    (∀ (name : String) (size : Nat) (content : String),
        ".csv".data.isSuffixOf (jsToLower name).data = true →
        size ≤ 10 * 1024 * 1024 →
        strIncludes (headerLine content) "weight_lbs" = true →
        validateCSVFile name size content = Except.error CSVFileError.unsupportedUnit) ∧
    (∀ (name : String) (size : Nat) (content : String),
        ".csv".data.isSuffixOf (jsToLower name).data = true →
        size ≤ 10 * 1024 * 1024 →
        strIncludes (headerLine content) "weight_lbs" = false →
        strIncludes (headerLine content) "weight_kg" = false →
        validateCSVFile name size content = Except.error CSVFileError.missingColumn) ∧
    (∀ (name : String) (size : Nat) (header rest : String),
        (∀ c ∈ header.data, c ≠ '\n') →
        validateCSVFile name size (header ++ "\n" ++ rest) =
          validateCSVFile name size header) := by
  refine ⟨?_, ?_, ?_⟩
  · intro name size content hn hs hl
    simp [validateCSVFile, hn, hl, Nat.not_lt.mpr hs]
  · intro name size content hn hs hl hk
    simp [validateCSVFile, hn, hl, hk, Nat.not_lt.mpr hs]
  · intro name size header rest h
    have htw : header.data.takeWhile (fun c => decide (c ≠ '\n')) = header.data := by
      rw [List.takeWhile_eq_self_iff]
      intro a ha
      simp [h a ha]
    have he : headerLine (header ++ "\n" ++ rest) = headerLine header := by
      unfold headerLine
      congr 1
      have hd : (header ++ "\n" ++ rest).data = header.data ++ ('\n' :: rest.data) := by
        simp [String.data_append]
      rw [hd, List.takeWhile_append, htw]
      simp
    simp [validateCSVFile, he]

/-- Witness for C3: a weight_lbs header is rejected as unsupported, a
header with no weight column is rejected as missing, and appending data
rows after the header does not change the verdict. -/
theorem validateCSVFile_unit_errors_witness :
    (".csv".data.isSuffixOf (jsToLower "export.CSV").data = true ∧
     (120 : Nat) ≤ 10 * 1024 * 1024 ∧
     strIncludes (headerLine "title,weight_lbs,reps\nBench,100,5") "weight_lbs" = true ∧
     validateCSVFile "export.CSV" 120 "title,weight_lbs,reps\nBench,100,5" =
       Except.error CSVFileError.unsupportedUnit) ∧
    (strIncludes (headerLine "title,reps\nBench,5") "weight_lbs" = false ∧
     strIncludes (headerLine "title,reps\nBench,5") "weight_kg" = false ∧
     validateCSVFile "a.csv" 20 "title,reps\nBench,5" =
       Except.error CSVFileError.missingColumn) ∧
    ((∀ c ∈ ("title,weight_kg" : String).data, c ≠ '\n') ∧
     validateCSVFile "a.csv" 20 ("title,weight_kg" ++ "\n" ++ "Bench,100") =
       validateCSVFile "a.csv" 20 "title,weight_kg") :=
  ⟨⟨by decide, by decide, by decide,
    validateCSVFile_unit_errors.1 "export.CSV" 120 "title,weight_lbs,reps\nBench,100,5"
      (by decide) (by decide) (by decide)⟩,
   ⟨by decide, by decide,
    validateCSVFile_unit_errors.2.1 "a.csv" 20 "title,reps\nBench,5"
      (by decide) (by decide) (by decide) (by decide)⟩,
   ⟨by decide,
    validateCSVFile_unit_errors.2.2 "a.csv" 20 "title,weight_kg" "Bench,100" (by decide)⟩⟩

/-- C4 (amended): each numeric set field is null exactly for an empty raw
string; a non-empty string that the tolerant parser does not recognize as a
number parses to NaN — not to null, never to zero, and never as an error
(the parsers are total).  parseInt recognizes only a signed digit prefix;
parseFloat additionally recognizes the signed Infinity literal, which
yields an infinite — present, not absent — value.  Downstream consumers
treat NaN exactly like an absent value, but the stored field is NaN rather
than null. -/
theorem parse_numeric_fields_null_nan :
    (∀ (row : CSVRow) (nowMs : Int) (i : Nat),
        (mkSet row nowMs i).weight_kg =
          (if row.weight_kg = "" then none else some (parseFloatJS row.weight_kg)) ∧
        (mkSet row nowMs i).reps =
          (if row.reps = "" then none else some (parseIntJS row.reps)) ∧
        (mkSet row nowMs i).distance_km =
          (if row.distance_km = "" then none else some (parseFloatJS row.distance_km)) ∧
        (mkSet row nowMs i).duration_seconds =
          (if row.duration_seconds = "" then none else some (parseIntJS row.duration_seconds)) ∧
        (mkSet row nowMs i).rpe =
          (if row.rpe = "" then none else some (parseFloatJS row.rpe))) ∧
    (∀ s : String,
        (if s = "" then (none : Option JSNum) else some (parseFloatJS s)) = none ↔ s = "") ∧
    (∀ s : String,
        (if s = "" then (none : Option JSNum) else some (parseIntJS s)) = none ↔ s = "") ∧
    (∀ s : String, hasNumPrefix s = false →
        parseIntJS s = JSNum.nan ∧ parseIntJS s ≠ JSNum.num 0) ∧
    (∀ s : String, hasNumPrefix s = false → isInfinityLiteral s = false →
        parseFloatJS s = JSNum.nan ∧ parseFloatJS s ≠ JSNum.num 0) ∧
    (∀ s : String, isInfinityLiteral s = true →
        parseFloatJS s = JSNum.inf ∨ parseFloatJS s = JSNum.negInf) := by
  refine ⟨?_, ?_, ?_, ?_, ?_, ?_⟩
  · intro row nowMs i
    exact ⟨rfl, rfl, rfl, rfl, rfl⟩
  · intro s
    by_cases h : s = "" <;> simp [h]
  · intro s
    by_cases h : s = "" <;> simp [h]
  · intro s h
    have hi := (hasNumPrefix_false_nan s h).1
    exact ⟨hi, by simp [hi]⟩
  · intro s h hinf
    have hf := (hasNumPrefix_false_nan s h).2 hinf
    exact ⟨hf, by simp [hf]⟩
  · intro s hinf
    unfold isInfinityLiteral at hinf
    simp only [parseFloatJS]
    by_cases hs : signVal (s.data.dropWhile isJSWhitespace) < 0
    · exact Or.inr (by simp [hinf, hs])
    · exact Or.inl (by simp [hinf, hs])

/-- Witness for C4 (amended): the non-numeric string "abc" parses to NaN,
not to zero, under both tolerant parsers, while parseFloat of the string
"Infinity" yields an infinite value. -/
theorem parse_numeric_fields_null_nan_witness :
    hasNumPrefix "abc" = false ∧ isInfinityLiteral "abc" = false ∧
    (parseIntJS "abc" = JSNum.nan ∧ parseIntJS "abc" ≠ JSNum.num 0) ∧
    (parseFloatJS "abc" = JSNum.nan ∧ parseFloatJS "abc" ≠ JSNum.num 0) ∧
    isInfinityLiteral "Infinity" = true ∧
    (parseFloatJS "Infinity" = JSNum.inf ∨ parseFloatJS "Infinity" = JSNum.negInf) :=
  ⟨by decide, by decide,
   parse_numeric_fields_null_nan.2.2.2.1 "abc" (by decide),
   parse_numeric_fields_null_nan.2.2.2.2.1 "abc" (by decide) (by decide),
   by decide,
   parse_numeric_fields_null_nan.2.2.2.2.2 "Infinity" (by decide)⟩

/-- Counterexample to C4 as stated: for the row whose weight field is the
non-numeric string "abc", the built set's weight is NaN, which is not the
absent (null) value the claim promises. -/
theorem parse_nonNumeric_not_null_counterexample :
    (mkSet rowAbc 0 1).weight_kg = some JSNum.nan ∧
    (mkSet rowAbc 0 1).weight_kg ≠ none := by
  constructor <;> decide

/-- C5: calculateTotalVolume equals the spec-side sum of weight*reps over
exactly the sets where both are present (absent values excluded from the
filtered sum, not zeroed), rounded once at the end; on a workout with two
0.4-volume sets the end-rounded total is 1 while per-set rounding would
give 0, so the single final rounding is observable. -/
theorem totalVolume_refines_spec :
    (∀ workouts : List Workout, calculateTotalVolume workouts = specTotalVolume workouts) ∧
    calculateTotalVolume [sampleWorkout "a" 0 "Curl" [sampleSet (2/5) 1, sampleSet (2/5) 1]] = 1 ∧
    perSetRoundedVolume [sampleWorkout "a" 0 "Curl" [sampleSet (2/5) 1, sampleSet (2/5) 1]] = 0 := by
  refine ⟨?_, ?_, ?_⟩
  · intro workouts
    unfold calculateTotalVolume specTotalVolume allSets allExercises
    congr 1
    rw [filterMap_sum_getD]
    simp only [foldl_add_map, zero_add, List.map_flatten, List.sum_flatten, List.map_map,
      presentVolume_getD]
    simp [Function.comp_def]
  · norm_num [calculateTotalVolume, sampleWorkout, sampleSet, jsRound, ratFloor_eq_floor]
  · norm_num [perSetRoundedVolume, allSets, allExercises, presentVolume, sampleWorkout,
      sampleSet, jsRound, ratFloor_eq_floor, List.filterMap_cons]

/-- C6: every muscle group's final count is the sum, over all exercises, of
the full set count contributed to that group by the first pattern of the
ordered table that occurs in the lower-cased exercise title (titles
matching no pattern contribute nothing); concretely, "Romanian Deadlift"
with three sets adds 3 to back and 3 to legs and nothing elsewhere. -/
theorem muscleDistribution_first_match_full_count :
    (∀ (workouts : List Workout) (k : String),
        ((calculateMuscleDistribution workouts).lookup k).getD 0 =
          ((allExercises workouts).map (exContribution k)).sum) ∧
    calculateMuscleDistribution
        [sampleWorkout "w" 0 "Romanian Deadlift" [bareSet, bareSet, bareSet]] =
      [("chest", 0), ("back", 3), ("shoulders", 0), ("biceps", 0), ("triceps", 0),
       ("legs", 3), ("core", 0)] := by
  constructor
  · intro workouts k
    rw [lookup_muscleDistribution]
    cases hk : muscleGroupsInit.lookup k with
    | some v =>
      have hv : v = 0 := init_values_zero (k, v) (lookup_mem hk)
      simp [hv]
    | none =>
      simp only [Option.map, Option.getD]
      symm
      apply List.sum_eq_zero
      intro x hx
      rcases List.mem_map.mp hx with ⟨ex, hex, rfl⟩
      unfold exContribution
      rcases hf : exerciseToMuscle.find? (fun p => strIncludes (jsToLower ex.title) p.1) with _ | p
      · simp [matchedMuscles, hf]
      · have hp := List.mem_of_find?_eq_some hf
        have hcount : (matchedMuscles ex.title).count k = 0 := by
          rw [List.count_eq_zero]
          intro hkmem
          have hsome : (muscleGroupsInit.lookup k).isSome = true :=
            table_groups_defined p hp k (by simpa [matchedMuscles, hf] using hkmem)
          rw [hk] at hsome
          simp at hsome
        simp [hcount]
  · decide

/-- C7: a timestamp with the German month abbreviation "Dez" parses to the
same instant as its English "Dec" equivalent under any host date parser,
because the normalizer substitutes the first matching German abbreviation
before delegating. -/
theorem parseDate_german_month_equiv :
    ∀ (dateParse : String → Option Int) (nowMs : Int),
      parseDate dateParse nowMs "16 Dez 2025, 15:06" =
        parseDate dateParse nowMs "16 Dec 2025, 15:06" := by
  intro dp now
  have h1 : normalizeGermanDate "16 Dez 2025, 15:06" = "16 Dec 2025, 15:06" := by decide
  have h2 : normalizeGermanDate "16 Dec 2025, 15:06" = "16 Dec 2025, 15:06" := by decide
  simp [parseDate, h1, h2]

/-- C8: parseDate is a total function (it never raises); whenever the host
parser fails on the normalized string it returns the current instant in
epoch seconds, and on success it returns the parsed instant in epoch
seconds. -/
theorem parseDate_never_fails :
    ∀ (dateParse : String → Option Int) (nowMs : Int) (s : String),
      (dateParse (normalizeGermanDate s) = none →
        parseDate dateParse nowMs s = Int.fdiv nowMs 1000) ∧
      (∀ ms, dateParse (normalizeGermanDate s) = some ms →
        parseDate dateParse nowMs s = Int.fdiv ms 1000) := by
  intro dp now s
  constructor
  · intro h; simp [parseDate, h]
  · intro ms h; simp [parseDate, h]

/-- Witness for C8: with a host parser that rejects everything, parseDate
of garbage at clock 7000 ms is 7 seconds. -/
theorem parseDate_never_fails_witness :
    noDateParse (normalizeGermanDate "not a date") = none ∧
    parseDate noDateParse 7000 "not a date" = Int.fdiv 7000 1000 :=
  ⟨rfl, (parseDate_never_fails noDateParse 7000 "not a date").1 rfl⟩

/-- C9: the dedup key is the underscore-joined raw concatenation, so the
rows (title "A_B", start "C") and (title "A", start "B_C") share the key
"A_B_C" and fold into a single workout. -/
theorem workoutKey_collision_merges :
    workoutKey (mkRow "A_B" "C" "X") = "A_B_C" ∧
    workoutKey (mkRow "A" "B_C" "X") = "A_B_C" ∧
    (∀ (dateParse : String → Option Int) (nowMs : Int),
      (parseCSV dateParse nowMs [mkRow "A_B" "C" "X", mkRow "A" "B_C" "X"]).length = 1) := by
  refine ⟨by decide, by decide, ?_⟩
  intro dp now
  simp [parseCSV, buildMap, buildMapAux, processRow, workoutKey, mkRow, updateFirstVal,
    List.insertionSort, addRowToWorkout]

/-- C10: the tree builder matches exercise titles case-sensitively (two
case-variant rows produce one workout with two exercises), yet both PR
detectors key their per-exercise running maxima by the lower-cased title:
a later workout whose exercise differs only in case repeats the earlier
maxima and so registers zero PR events, in the dated timeline and in the
month-grouped buckets alike. -/
theorem prState_keyed_by_lowercase_title :
    (∀ (dateParse : String → Option Int) (nowMs : Int),
        (parseCSV dateParse nowMs
            [mkRow "T" "S" "Bench Press", mkRow "T" "S" "BENCH PRESS"]).map
          (fun w => w.exercises.length) = [2]) ∧
    calculatePRsOverTime
        [sampleWorkout "a" 0 "Bench Press" [sampleSet 100 10],
         sampleWorkout "b" 86400 "BENCH PRESS" [sampleSet 100 10]] =
      [("1970-01-01", 3)] ∧
    calculatePRsGrouped
        [sampleWorkout "a" 0 "Bench Press" [sampleSet 100 10],
         sampleWorkout "b" (86400 * 40) "BENCH PRESS" [sampleSet 100 10]]
        GroupBy.month =
      [("1970-01", 3)] := by
  refine ⟨?_, ?_, ?_⟩
  · intro dp now
    simp [parseCSV, buildMap, buildMapAux, processRow, workoutKey, mkRow, updateFirstVal,
      List.insertionSort, addRowToWorkout, newExercise, pushSetFirst, newWorkout]
  · have d1 : isoDate 0 = "1970-01-01" := by decide
    have d2 : isoDate 86400 = "1970-01-02" := by decide
    have k1 : jsToLower "Bench Press" = "bench press" := by decide
    have k2 : jsToLower "BENCH PRESS" = "bench press" := by decide
    norm_num [calculatePRsOverTime, sampleWorkout, sampleSet, List.insertionSort,
      List.orderedInsert, processWorkoutExercises, prProcessSets, prUpdateSet, PRState.init,
      updateFirstVal, bumpDate, d1, d2, k1, k2]
  · have d1 : periodKey GroupBy.month 0 = "1970-01" := by decide
    have d2 : periodKey GroupBy.month (86400 * 40) = "1970-02" := by decide
    have k1 : jsToLower "Bench Press" = "bench press" := by decide
    have k2 : jsToLower "BENCH PRESS" = "bench press" := by decide
    norm_num [calculatePRsGrouped, sampleWorkout, sampleSet, List.insertionSort,
      List.orderedInsert, processWorkoutExercises, prProcessSets, prUpdateSet, PRState.init,
      updateFirstVal, bumpDate, d1, d2, k1, k2]
